import Mathlib

/-!
Verification development for the UR robot module
(`ur5_driver/ur_dashboard.py`, `ur_driver/ur_driver.py`,
`ur_driver/ur_tools/gripper_controller.py`).

The Python code is shallowly embedded: responses and commands are lists of
characters or strings, socket effects are passed in explicitly, Python
exceptions become an explicit error type, and unbounded loops / recursion
take a fuel parameter.
-/

set_option autoImplicit false

namespace URModule

/-- Python exceptions that the embedded code can raise. -/
inductive PyExn where
  | sockErr : PyExn
  | typeError : PyExn
  | indexError : PyExn
  | exception : String → PyExn
deriving DecidableEq

/-- The whitespace characters removed by Python `str.strip()`. -/
def isPySpace (c : Char) : Bool :=
  c = ' ' || c = '\t' || c = '\n' || c = '\x0d' || c = '\x0b' || c = '\x0c'

/-- Python `str.strip()` on a list of characters: drop whitespace from both ends. -/
def pyStrip (l : List Char) : List Char :=
  ((l.dropWhile isPySpace).reverse.dropWhile isPySpace).reverse

/-- `startsWith n l` is true when `n` is a leading segment of `l`. -/
def startsWith : List Char → List Char → Bool
  | [], _ => true
  | _ :: _, [] => false
  | a :: as, b :: bs => a = b && startsWith as bs

/-- Python `hay.find(needle) != -1`: `needle` occurs contiguously inside `hay`. -/
def isSubstringOf (needle : List Char) : List Char → Bool
  | [] => needle.isEmpty
  | c :: rest => startsWith needle (c :: rest) || isSubstringOf needle rest

namespace Dashboard

/-- The greeting banner of the UR dashboard server (44 characters). -/
def banner : List Char := "Connected: Universal Robots Dashboard Server".data

/-- The try-block of `UR_DASHBOARD.send_command` (ur_dashboard.py lines 32-46).
The socket receive is passed in as `recvResult`: a socket failure during
connect/send/receive surfaces as `Except.error`.  On success, if the banner
occurs in the response the code drops the first 45 characters
(`response = response[45:]`), then returns `response.strip()`. -/
def send_command_body (recvResult : Except PyExn (List Char)) :
    Except PyExn (List Char) :=
  match recvResult with
  | .error e => .error e
  | .ok response =>
    let response :=
      if isSubstringOf banner response then response.drop 45 else response
    .ok (pyStrip response)

/-- `UR_DASHBOARD.send_command` (ur_dashboard.py lines 28-49): the try-block
wrapped in `except Exception as err: print(err)`, which swallows the error and
lets the method return Python `None` (`none` here). -/
def send_command (recvResult : Except PyExn (List Char)) : Option (List Char) :=
  match send_command_body recvResult with
  | .ok s => some s
  | .error _ => none

end Dashboard

/-- A list of characters with no leading and no trailing Python whitespace,
i.e. the result of a correct `str.strip()`. -/
def noEdgeSpace (l : List Char) : Bool :=
  l.head?.all (fun c => !isPySpace c) && l.getLast?.all (fun c => !isPySpace c)

theorem startsWith_iff (n : List Char) : ∀ l : List Char,
    startsWith n l = true ↔ n <+: l := by
  induction n with
  | nil =>
    intro l
    simp only [startsWith, true_iff]
    exact ⟨l, rfl⟩
  | cons a as ih =>
    intro l
    cases l with
    | nil => simp [startsWith, List.prefix_nil]
    | cons b bs => simp [startsWith, List.cons_prefix_cons, ih]

theorem isSubstringOf_iff (n : List Char) : ∀ l : List Char,
    isSubstringOf n l = true ↔ n <:+: l := by
  intro l
  induction l with
  | nil => simp [isSubstringOf, List.isEmpty_iff, List.infix_nil]
  | cons c rest ih =>
    simp [isSubstringOf, List.infix_cons_iff, startsWith_iff, ih]

theorem head?_dropWhile_all (p : Char → Bool) (l : List Char) :
    ((l.dropWhile p).head?).all (fun c => !p c) = true := by
  induction l with
  | nil => rfl
  | cons a as ih =>
    by_cases h : p a = true
    · simpa [List.dropWhile_cons, h] using ih
    · simp [List.dropWhile_cons, h]

theorem pyStrip_isInfix (l : List Char) : pyStrip l <:+: l := by
  unfold pyStrip
  set A := l.dropWhile isPySpace with hA
  have h1 : A <:+ l := List.dropWhile_suffix _
  have h2 : A.reverse.dropWhile isPySpace <:+ A.reverse :=
    List.dropWhile_suffix _
  have h3 : (A.reverse.dropWhile isPySpace).reverse <+: A := by
    rw [← List.reverse_suffix]
    simpa using h2
  exact h3.isInfix.trans h1.isInfix

theorem noEdgeSpace_pyStrip (l : List Char) : noEdgeSpace (pyStrip l) = true := by
  unfold pyStrip noEdgeSpace
  set A := l.dropWhile isPySpace with hA
  set B := A.reverse.dropWhile isPySpace with hB
  rcases hBe : B with _ | ⟨b, bs⟩
  · simp
  rw [← hBe]
  have hBne : B ≠ [] := by rw [hBe]; simp
  -- trailing side: last of `B.reverse` is the head of `B`, which `dropWhile` cleared
  have hlast : (B.reverse).getLast? = B.head? := List.getLast?_reverse B
  have hhead_all : (B.head?).all (fun c => !isPySpace c) = true := by
    rw [hB]; exact head?_dropWhile_all _ _
  -- leading side: head of `B.reverse` is the last of `B`;
  -- `B` is a suffix of `A.reverse`, whose last element is the head of `A`
  have hsuf : B <:+ A.reverse := by rw [hB]; exact List.dropWhile_suffix _
  obtain ⟨t, ht⟩ := hsuf
  have hheadrev : (B.reverse).head? = B.getLast? := List.head?_reverse B
  have hBlast : B.getLast? = A.head? := by
    have h1 : (t ++ B).getLast? = B.getLast? := by
      rw [List.getLast?_append]
      rcases hBe2 : B.getLast? with _ | x
      · exact absurd (List.getLast?_eq_none_iff.mp hBe2) hBne
      · rfl
    have h2 : (A.reverse).getLast? = A.head? := List.getLast?_reverse A
    rw [← h2, ← ht, h1]
  have hA_all : (A.head?).all (fun c => !isPySpace c) = true := by
    rw [hA]; exact head?_dropWhile_all _ _
  rw [hheadrev, hlast, hBlast, hA_all, hhead_all]
  rfl

namespace Dashboard

/-- C8: `UR_DASHBOARD.send_command` either returns the response text with
surrounding whitespace trimmed (a `some` value with no leading/trailing
whitespace), or, when a socket error occurs during connect/send/receive,
returns Python `None`; the catch-all handler means no socket exception
propagates (the function is total into `Option`). -/
theorem send_command_total_and_trimmed (recvResult : Except PyExn (List Char)) :
    (send_command recvResult).all (fun s => noEdgeSpace s) = true ∧
    (∀ e, recvResult = .error e → send_command recvResult = none) ∧
    (∀ r, recvResult = .ok r → send_command recvResult ≠ none) := by
  rcases recvResult with e | r
  · exact ⟨rfl, fun _ _ => rfl, fun r h => by exact absurd h (by simp)⟩
  · refine ⟨?_, fun e h => by exact absurd h (by simp), fun r' _ => by
      simp [send_command, send_command_body]⟩
    by_cases h : isSubstringOf banner r = true
    · simp [send_command, send_command_body, h, Option.all, noEdgeSpace_pyStrip]
    · simp [send_command, send_command_body, eq_false_of_ne_true h, Option.all,
        noEdgeSpace_pyStrip]

/-- C8 witness: a socket error yields `none`; a concrete successful receive
yields a trimmed `some` value. -/
theorem send_command_total_and_trimmed_witness :
    (send_command (.ok "  Robotmode: RUNNING\n".data)).all
        (fun s => noEdgeSpace s) = true ∧
    send_command (Except.error PyExn.sockErr) = none ∧
    send_command (.ok "  Robotmode: RUNNING\n".data) ≠ none :=
  ⟨(send_command_total_and_trimmed _).1,
   (send_command_total_and_trimmed _).2.1 _ rfl,
   (send_command_total_and_trimmed _).2.2 _ rfl⟩

/-- C5 counterexample: a response in which the banner occurs twice ends up
still containing the banner after `send_command`'s fixed 45-character cut, so
the universally quantified claim is false. -/
theorem send_command_banner_counterexample :
    send_command (.ok (banner ++ '\n' :: banner)) = some banner ∧
    isSubstringOf banner banner = true := by
  constructor
  · decide
  · decide

/-- C5 amended: if the banner occurs in the response but does not occur at or
after character index 45 (in particular, when it occurs only as the leading
greeting line), then the string returned by `send_command` does not contain
the banner. -/
theorem send_command_strips_banner (resp : List Char)
    (hocc : isSubstringOf banner resp = true)
    (hno : isSubstringOf banner (resp.drop 45) = false) :
    (send_command (.ok resp)).all (fun s => !isSubstringOf banner s) = true := by
  simp only [send_command, send_command_body, hocc, if_true, Option.all]
  suffices h : ¬ isSubstringOf banner (pyStrip (resp.drop 45)) = true by
    simpa using h
  intro h
  have h1 : banner <:+: pyStrip (resp.drop 45) := (isSubstringOf_iff _ _).mp h
  have h2 : banner <:+: resp.drop 45 := h1.trans (pyStrip_isInfix _)
  rw [(isSubstringOf_iff _ _).mpr h2] at hno
  exact absurd hno (by simp)

/-- C5 amended witness: the ordinary greeting-then-payload response. -/
theorem send_command_strips_banner_witness :
    isSubstringOf banner (banner ++ '\n' :: "NORMAL".data) = true ∧
    isSubstringOf banner ((banner ++ '\n' :: "NORMAL".data).drop 45) = false ∧
    (send_command (.ok (banner ++ '\n' :: "NORMAL".data))).all
      (fun s => !isSubstringOf banner s) = true :=
  ⟨by decide, by decide, send_command_strips_banner _ (by decide) (by decide)⟩

end Dashboard

/-- Python `str.upper()` (all statuses here are ASCII). -/
def pyUpper (s : String) : String := ⟨s.data.map Char.toUpper⟩

namespace Dashboard

/-- The values obtained by the four status queries at the top of one pass of
`UR_DASHBOard.initialize` (ur_dashboard.py lines 53-56), already parsed the
way the query wrappers parse them: `robot_mode()` and `safety_status()` split
the response on a space and keep the second token, `get_operational_mode()`
and `is_in_remote_control()` return the raw trimmed response. -/
structure DashStatus where
  robotMode : String
  operationalMode : String
  safetyStatus : String
  remoteControl : String
deriving DecidableEq

/-- The four status-query commands sent at the top of every `initialize` pass. -/
def initQueries : List String :=
  ["robotmode", "get operational mode", "safetystatus", "is in remote control"]

/-- The dashboard commands one pass of `initialize` sends after the four
queries, transcribed from ur_dashboard.py lines 58-79.  `restart_safety`
itself sends `restart safety` and then (through `brake_release`) a second
`brake release` command. -/
def initPassActions (s : DashStatus) : List String :=
  (if pyUpper s.safetyStatus = "PROTECTIVE_STOP" then
      ["unlock protective stop"]
    else if pyUpper s.safetyStatus ≠ "NORMAL" then
      ["close safety popup", "restart safety", "brake release"]
    else [])
  ++ (if pyUpper s.operationalMode = "MANUAL" then
        ["set operational mode automatic"]
      else [])
  ++ (if pyUpper s.robotMode = "RUNNING" ∧ pyUpper s.safetyStatus = "NORMAL" then
        []
      else if pyUpper s.robotMode = "POWER_OFF" ∨ pyUpper s.robotMode = "BOOTING"
            ∨ pyUpper s.robotMode = "POWER_ON" ∨ pyUpper s.robotMode = "IDLE" then
        ["brake release"]
      else [])

/-- The terminal test of `initialize` (ur_dashboard.py line 74): robot mode
`RUNNING` together with safety status `NORMAL`. -/
def initDone (s : DashStatus) : Bool :=
  pyUpper s.robotMode == "RUNNING" && pyUpper s.safetyStatus == "NORMAL"

/-- `UR_DASHBOARD.initialize` (ur_dashboard.py lines 51-81) with explicit
fuel: `env n` gives the statuses the four queries report on pass `n`.  The
result is the full list of commands sent, or `none` when the recursion is
still running after `fuel` passes (the Python original recurses with no bound,
line 81). -/
def initializeRun : Nat → (Nat → DashStatus) → Option (List String)
  | 0, _ => none
  | fuel + 1, env =>
    let s := env 0
    let cmds := initQueries ++ initPassActions s
    if initDone s then some cmds
    else
      match initializeRun fuel (fun n => env (n + 1)) with
      | none => none
      | some rest => some (cmds ++ rest)

/-- C1 counterexample: with robot mode `RUNNING`, safety `NORMAL` but
operational mode `MANUAL`, `initialize` does return on its first pass, yet it
sends the mutating command `set operational mode automatic` in addition to the
four status queries — so "only the four status queries are sent, for every
value of the other queried statuses" is false. -/
theorem initialize_manual_counterexample :
    initializeRun 1 (fun _ => ⟨"RUNNING", "MANUAL", "NORMAL", "true"⟩) =
      some (initQueries ++ ["set operational mode automatic"]) ∧
    initializeRun 1 (fun _ => ⟨"RUNNING", "MANUAL", "NORMAL", "true"⟩) ≠
      some initQueries := by
  constructor
  · decide
  · decide

/-- C1 amended: when the robot already reports mode `RUNNING` and safety
status `NORMAL`, and the operational mode is not reported as `MANUAL`,
`initialize` returns on its first pass having sent exactly the four status
queries and no other command, for every value of the remote-control flag. -/
theorem initialize_ready_sends_only_queries (env : Nat → DashStatus) (fuel : Nat)
    (h1 : pyUpper (env 0).robotMode = "RUNNING")
    (h2 : pyUpper (env 0).safetyStatus = "NORMAL")
    (h3 : pyUpper (env 0).operationalMode ≠ "MANUAL") :
    initializeRun (fuel + 1) env = some initQueries := by
  have hdone : initDone (env 0) = true := by
    simp [initDone, h1, h2]
  have hacts : initPassActions (env 0) = [] := by
    simp [initPassActions, h1, h2, h3]
  simp [initializeRun, hdone, hacts]

/-- C1 amended witness: a concrete ready robot in automatic mode. -/
theorem initialize_ready_sends_only_queries_witness :
    pyUpper "RUNNING" = "RUNNING" ∧
    initializeRun 1 (fun _ => ⟨"RUNNING", "AUTOMATIC", "NORMAL", "true"⟩) =
      some initQueries :=
  ⟨by decide,
   initialize_ready_sends_only_queries
     (fun _ => ⟨"RUNNING", "AUTOMATIC", "NORMAL", "true"⟩) 0
     (by decide) (by decide) (by decide)⟩

/-- C9: `initialize` terminates only by observing robot mode `RUNNING`
together with safety status `NORMAL` on some pass: if no pass ever reports
that pair, the recursion never returns, no matter how much fuel it is given
(there is no retry limit, timeout, or alternative exit). -/
theorem initialize_unbounded_recursion (env : Nat → DashStatus)
    (h : ∀ n, initDone (env n) = false) :
    ∀ fuel, initializeRun fuel env = none := by
  intro fuel
  induction fuel generalizing env with
  | zero => rfl
  | succ n ih =>
    have h0 : initDone (env 0) = false := h 0
    have hrec : initializeRun n (fun k => env (k + 1)) = none :=
      ih (fun k => env (k + 1)) (fun k => h (k + 1))
    simp [initializeRun, h0, hrec]

/-- C9 witness: a robot persistently reporting `POWER_OFF` never lets
`initialize` return, for a concrete fuel value. -/
theorem initialize_unbounded_recursion_witness :
    initializeRun 7 (fun _ => ⟨"POWER_OFF", "AUTOMATIC", "NORMAL", "true"⟩) =
      none :=
  initialize_unbounded_recursion
    (fun _ => ⟨"POWER_OFF", "AUTOMATIC", "NORMAL", "true"⟩)
    (fun _ => rfl) 7

end Dashboard

/-- Python `str.lower()` (axis strings here are ASCII). -/
def pyLower (s : String) : String := ⟨s.data.map Char.toLower⟩

namespace Gripper

/-- Motion and gripper effects issued by `FingerGripperController.pick` /
`place`.  Python floats are modelled as exact rationals. -/
inductive GAct where
  | movel (target : List ℚ) (accel vel : ℚ)
  | gripperMove (pos speed force : ℕ)
deriving DecidableEq

/-- `FingerGripperController` instance state (gripper_controller.py lines
26-37).  The constructor initializes `gripper_close` and the misspelled
`griper_open`; the facade's per-call override (ur_driver.py line 145) assigns
a *new* attribute `gripper_open`, modelled as an `Option` that starts absent. -/
structure FingerGripperController where
  gripper_close : ℕ := 130
  griper_open : ℕ := 0
  gripper_open : Option ℕ := none
  gripper_speed : ℕ := 150
  gripper_force : ℕ := 0
  acceleration : ℚ := 0.5
  velocity : ℚ := 0.2
deriving DecidableEq

/-- The approach-axis dispatch written identically in `pick` (gripper_controller.py
lines 83-96) and `place` (lines 120-133): `axis` starts as `None`; a falsy or
`"z"` axis selects index 2, `"y"`/`"-y"` index 1, `"x"`/`"-x"` index 0, the
`-`-prefixed variants negating the approach distance; any other string leaves
`axis = None`. -/
def axisIndex (approach_axis : Option String) (approach_distance : ℚ) :
    Option (ℕ × ℚ) :=
  match approach_axis with
  | none => some (2, approach_distance)
  | some a =>
    if a = "" ∨ pyLower a = "z" then some (2, approach_distance)
    else if pyLower a = "y" then some (1, approach_distance)
    else if pyLower a = "-y" then some (1, -approach_distance)
    else if pyLower a = "x" then some (0, approach_distance)
    else if pyLower a = "-x" then some (0, -approach_distance)
    else none

/-- `above_goal = deepcopy(goal); above_goal[axis] += approach_distance`
(gripper_controller.py lines 98-99 and 135-136).  With `axis = None` Python
raises `TypeError` on the subscript; with an index out of range it raises
`IndexError`. -/
def computeAbove (goal : List ℚ) (approach_axis : Option String)
    (approach_distance : ℚ) : Except PyExn (List ℚ) :=
  match axisIndex approach_axis approach_distance with
  | none => .error .typeError
  | some (i, d) =>
    match goal.get? i with
    | none => .error .indexError
    | some v => .ok (goal.set i (v + d))

/-- `FingerGripperController.pick` (gripper_controller.py lines 76-111): the
trace of motion/gripper commands issued, plus the Python exception raised, if
any.  An exception is raised before any further command is issued. -/
def pick (c : FingerGripperController) (pick_goal : List ℚ)
    (approach_axis : Option String) (approach_distance : ℚ) :
    List GAct × Option PyExn :=
  if pick_goal = [] then
    ([], some (.exception "Please provide the source loaction"))
  else
    match computeAbove pick_goal approach_axis approach_distance with
    | .error e => ([], some e)
    | .ok above =>
      ([.movel above c.acceleration c.velocity,
        .movel pick_goal c.acceleration c.velocity,
        .gripperMove c.gripper_close c.gripper_speed c.gripper_force,
        .movel above c.acceleration c.velocity], none)

/-- `FingerGripperController.place` (gripper_controller.py lines 114-148):
identical shape to `pick`, but the gripper is driven to the misspelled
`griper_open` position (line 145). -/
def place (c : FingerGripperController) (place_goal : List ℚ)
    (approach_axis : Option String) (approach_distance : ℚ) :
    List GAct × Option PyExn :=
  if place_goal = [] then
    ([], some (.exception "Please provide the target loaction"))
  else
    match computeAbove place_goal approach_axis approach_distance with
    | .error e => ([], some e)
    | .ok above =>
      ([.movel above c.acceleration c.velocity,
        .movel place_goal c.acceleration c.velocity,
        .gripperMove c.griper_open c.gripper_speed c.gripper_force,
        .movel above c.acceleration c.velocity], none)

/-- Python truthiness of the optional integer arguments (`if gripper_open:`). -/
def truthyNat : Option ℕ → Bool
  | none => false
  | some n => n != 0

/-- ur_driver.py lines 144-147: `if gripper_open: gripper_controller.gripper_open
= gripper_open` (assigning a new attribute, while opening reads the misspelled
field `griper_open`) and `if gripper_close: gripper_controller.gripper_close =
gripper_close`. -/
def applyGripperOverrides (go gc : Option ℕ) (c : FingerGripperController) :
    FingerGripperController :=
  let c1 := if truthyNat go then { c with gripper_open := go } else c
  if truthyNat gc then { c1 with gripper_close := gc.getD c1.gripper_close }
  else c1

theorem axisIndex_neg_y (d : ℚ) : axisIndex (some "-y") d = some (1, -d) := by
  simp only [axisIndex]
  rw [if_neg (by decide), if_neg (by decide), if_pos (by decide)]

theorem axisIndex_z (d : ℚ) : axisIndex (some "z") d = some (2, d) := by
  simp only [axisIndex]
  rw [if_pos (by decide)]

/-- C3 / code bug: the facade override `gripper_controller.gripper_open =
gripper_open` (ur_driver.py line 145) writes an attribute the controller never
reads — `place` opens the gripper to the misspelled default field
`griper_open = 0` (gripper_controller.py line 145), not the passed 190, while
the close override 240 does take effect in `pick`. -/
theorem gripper_open_override_dead :
    (pick (applyGripperOverrides (some 190) (some 240) {})
        [0, 0, 0.2, 0, 0, 0] none 0.05).1.get? 2 =
      some (.gripperMove 240 150 0) ∧
    (place (applyGripperOverrides (some 190) (some 240) {})
        [0, 0, 0.2, 0, 0, 0] none 0.05).1.get? 2 =
      some (.gripperMove 0 150 0) ∧
    (applyGripperOverrides (some 190) (some 240) {}).gripper_open = some 190 ∧
    (0 : ℕ) ≠ 190 :=
  ⟨rfl, rfl, rfl, by decide⟩

/-- C6: for every 6-element goal pose and positive approach distance, `pick`
and `place` with axis `"-y"` compute the above pose by subtracting the
distance from index 1, and with axis `"z"` by adding it to index 2, leaving
all other coordinates unchanged; the first motion issued is a linear move to
that above pose; the spec's concrete scenario holds. -/
theorem pick_place_above_pose (c : FingerGripperController) (g : List ℚ)
    (d y z : ℚ) (hlen : g.length = 6) (hy : g.get? 1 = some y)
    (hz : g.get? 2 = some z) (hd : 0 < d) :
    computeAbove g (some "-y") d = .ok (g.set 1 (y - d)) ∧
    (∀ j, j ≠ 1 → (g.set 1 (y - d)).get? j = g.get? j) ∧
    computeAbove g (some "z") d = .ok (g.set 2 (z + d)) ∧
    (∀ j, j ≠ 2 → (g.set 2 (z + d)).get? j = g.get? j) ∧
    (pick c g (some "-y") d).1.head? =
      some (.movel (g.set 1 (y - d)) c.acceleration c.velocity) ∧
    (place c g (some "-y") d).1.head? =
      some (.movel (g.set 1 (y - d)) c.acceleration c.velocity) ∧
    (pick c g (some "z") d).1.head? =
      some (.movel (g.set 2 (z + d)) c.acceleration c.velocity) ∧
    (place c g (some "z") d).1.head? =
      some (.movel (g.set 2 (z + d)) c.acceleration c.velocity) ∧
    computeAbove [0.1, 0.2, 0.3, 0, 0, 0] (some "z") 0.05 =
      .ok [0.1, 0.2, 0.35, 0, 0, 0] := by
  have hgne : g ≠ [] := by
    intro h
    rw [h] at hlen
    exact absurd hlen (by decide)
  have hAy : computeAbove g (some "-y") d = .ok (g.set 1 (y - d)) := by
    simp only [computeAbove, axisIndex_neg_y, hy, sub_eq_add_neg]
  have hAz : computeAbove g (some "z") d = .ok (g.set 2 (z + d)) := by
    simp only [computeAbove, axisIndex_z, hz]
  refine ⟨hAy, ?_, hAz, ?_, ?_, ?_, ?_, ?_, ?_⟩
  · intro j hj
    exact List.get?_set_ne _ _ (Ne.symm hj)
  · intro j hj
    exact List.get?_set_ne _ _ (Ne.symm hj)
  · simp [pick, hgne, hAy]
  · simp [place, hgne, hAy]
  · simp [pick, hgne, hAz]
  · simp [place, hgne, hAz]
  · simp only [computeAbove, axisIndex_z]
    norm_num

/-- C6 witness: the spec's scenario pose with distance 0.05. -/
theorem pick_place_above_pose_witness :
    ([0.1, 0.2, 0.3, 0, 0, 0] : List ℚ).length = 6 ∧
    ([0.1, 0.2, 0.3, 0, 0, 0] : List ℚ).get? 1 = some 0.2 ∧
    (0 : ℚ) < 0.05 ∧
    computeAbove [0.1, 0.2, 0.3, 0, 0, 0] (some "-y") 0.05 =
      .ok (([0.1, 0.2, 0.3, 0, 0, 0] : List ℚ).set 1 (0.2 - 0.05)) :=
  ⟨rfl, rfl, by norm_num,
   (pick_place_above_pose {} [0.1, 0.2, 0.3, 0, 0, 0] 0.05 0.2 0.3 rfl rfl rfl
     (by norm_num)).1⟩

/-- C10: with a non-empty goal and an approach axis outside
{z, y, -y, x, -x} (and not the falsy empty string), the axis index stays
`None` and both `pick` and `place` raise `TypeError` on the above-pose
subscript before issuing any motion or gripper command. -/
theorem pick_place_bad_axis (c : FingerGripperController) (g : List ℚ)
    (ax : String) (d : ℚ) (hg : g ≠ []) (h0 : ax ≠ "")
    (h1 : pyLower ax ≠ "z") (h2 : pyLower ax ≠ "y") (h3 : pyLower ax ≠ "-y")
    (h4 : pyLower ax ≠ "x") (h5 : pyLower ax ≠ "-x") :
    pick c g (some ax) d = ([], some .typeError) ∧
    place c g (some ax) d = ([], some .typeError) := by
  have hax : axisIndex (some ax) d = none := by
    simp only [axisIndex]
    rw [if_neg (not_or.mpr ⟨h0, h1⟩), if_neg h2, if_neg h3, if_neg h4, if_neg h5]
  constructor
  · simp [pick, hg, computeAbove, hax]
  · simp [place, hg, computeAbove, hax]

/-- C10 witness: the axis `"-z"` named by the claim. -/
theorem pick_place_bad_axis_witness :
    pyLower "-z" ≠ "z" ∧
    pick {} [0, 0, 0, 0, 0, 0] (some "-z") 1 = ([], some .typeError) ∧
    place {} [0, 0, 0, 0, 0, 0] (some "-z") 1 = ([], some .typeError) :=
  ⟨by decide,
   (pick_place_bad_axis {} [0, 0, 0, 0, 0, 0] "-z" 1 (by simp) (by decide)
     (by decide) (by decide) (by decide) (by decide) (by decide)).1,
   (pick_place_bad_axis {} [0, 0, 0, 0, 0, 0] "-z" 1 (by simp) (by decide)
     (by decide) (by decide) (by decide) (by decide) (by decide)).2⟩

end Gripper

namespace Facade

/-- The observable steps of the `UR` facade task methods (ur_driver.py). -/
inductive Act where
  | home
  | mkFingerGripperController
  | connectGripper
  | setGripperOverrides
  | gripperPick
  | gripperPlace
  | gripperTransfer
  | openGripper
  | closeGripper
  | movel
  | movej
  | getj
  | getl
  | speedlTool
  | sleepSecs
  | translateTool
  | mkScrewdriverController
  | activateScrewdriver
  | screwdriverTransfer
  | disconnectScrewdriver
  | mkPipetteController
  | connectPipette
  | pickTip
  | pipetteTransferSample
  | ejectTip
  | disconnectPipette
  | disconnectGripper
  | printMsg
  | printErr
deriving DecidableEq

/-- A method body of the shape `pre; try: steps except Exception: print(err);
finally: finSteps; post`, driven by an oracle `failAt` giving the index of
the try-step that raises (if any).  The result is the executed step trace and
whether an exception propagates to the caller (with the catch-all `except`
of ur_driver.py it never does). -/
def runTEF (pre trySteps finSteps post : List Act) (failAt : Option ℕ) :
    List Act × Bool :=
  match failAt with
  | none => (pre ++ trySteps ++ finSteps ++ post, false)
  | some k =>
    if k < trySteps.length then
      (pre ++ trySteps.take k ++ [.printErr] ++ finSteps ++ post, false)
    else
      (pre ++ trySteps ++ finSteps ++ post, false)

/-- The seven task methods of the `UR` facade named by the claim. -/
inductive TaskMethod where
  | gripper_transfer
  | gripper_screw_transfer
  | remove_cap
  | place_cap
  | pick_and_flip_object
  | robotiq_screwdriver_transfer
  | pipette_transfer
deriving DecidableEq

/-- Steps executed before the `try` block (transcribed from ur_driver.py:
every gripper method first homes; `pipette_transfer` does not). -/
def preOf : TaskMethod → List Act
  | .pipette_transfer => []
  | _ => [.home]

/-- The `try`-block step list of each task method, transcribed in order from
ur_driver.py (gripper_transfer 140-151, gripper_screw_transfer 167-202,
remove_cap 218-243, place_cap 252-278, pick_and_flip_object 291-313,
robotiq_screwdriver_transfer 327-331, pipette_transfer 344-352). -/
def tryOf : TaskMethod → List Act
  | .gripper_transfer =>
    [.mkFingerGripperController, .connectGripper, .setGripperOverrides,
     .gripperTransfer, .printMsg, .disconnectGripper]
  | .gripper_screw_transfer =>
    [.mkFingerGripperController, .connectGripper, .setGripperOverrides,
     .gripperPick, .home, .movel, .movel, .movel, .movel, .movel, .printMsg,
     .speedlTool, .sleepSecs, .translateTool, .home, .gripperPlace, .home]
  | .remove_cap =>
    [.mkFingerGripperController, .connectGripper, .setGripperOverrides,
     .openGripper, .movel, .movel, .closeGripper, .printMsg, .speedlTool,
     .sleepSecs, .translateTool, .home, .gripperPlace, .home]
  | .place_cap =>
    [.mkFingerGripperController, .connectGripper, .setGripperOverrides,
     .gripperPick, .home, .movel, .movel, .printMsg, .speedlTool, .sleepSecs,
     .openGripper, .translateTool, .home]
  | .pick_and_flip_object =>
    [.mkFingerGripperController, .connectGripper, .setGripperOverrides,
     .gripperPick, .getj, .movej, .getl, .gripperPlace, .home]
  | .robotiq_screwdriver_transfer =>
    [.mkScrewdriverController, .activateScrewdriver, .screwdriverTransfer,
     .disconnectScrewdriver]
  | .pipette_transfer =>
    [.mkPipetteController, .connectPipette, .pickTip, .home,
     .pipetteTransferSample, .ejectTip, .disconnectPipette, .printMsg]

/-- The `finally`-block of each task method: only `gripper_transfer` (lines
156-158) disconnects *and* re-homes; `gripper_screw_transfer` (207-208) and
`pick_and_flip_object` (317-318) only disconnect; `remove_cap` and
`place_cap` have no `finally`; `pipette_transfer`'s `finally` is `pass`
(355-358). -/
def finOf : TaskMethod → List Act
  | .gripper_transfer => [.disconnectGripper, .home]
  | .gripper_screw_transfer => [.disconnectGripper]
  | .pick_and_flip_object => [.disconnectGripper]
  | _ => []

/-- Steps after the `try/except` statement: only
`robotiq_screwdriver_transfer` re-homes unconditionally (line 335). -/
def postOf : TaskMethod → List Act
  | .robotiq_screwdriver_transfer => [.home]
  | _ => []

/-- Run one facade task method against the failure oracle. -/
def runTask (m : TaskMethod) (failAt : Option ℕ) : List Act × Bool :=
  runTEF (preOf m) (tryOf m) (finOf m) (postOf m) failAt

/-- C2 counterexample: an exception in the first try-step of `remove_cap` is
caught and printed, but nothing follows the print — there is no `finally`
block, no tool disconnect and no re-home (the sole `.home` in the trace is
the pre-try homing move). -/
theorem task_cleanup_counterexample :
    runTask .remove_cap (some 0) = ([.home, .printErr], false) ∧
    .disconnectGripper ∉ (runTask .remove_cap (some 0)).1 := by
  constructor
  · decide
  · decide

/-- C2 amended: for every task method and every inner step that raises, the
exception is caught and printed at the method's boundary and never propagates;
but the cleanup that follows differs per method: `gripper_transfer` alone
runs a `finally` that disconnects the tool and re-homes,
`gripper_screw_transfer` and `pick_and_flip_object` only disconnect,
`remove_cap`, `place_cap` and `pipette_transfer` run no cleanup at all, and
`robotiq_screwdriver_transfer` re-homes (outside any `finally`) without
disconnecting its tool. -/
theorem task_exception_policy :
    (∀ (m : TaskMethod) (failAt : Option ℕ), (runTask m failAt).2 = false) ∧
    (∀ (m : TaskMethod) (k : ℕ), k < (tryOf m).length →
      (runTask m (some k)).1 =
        preOf m ++ (tryOf m).take k ++ [.printErr] ++ finOf m ++ postOf m) ∧
    finOf .gripper_transfer ++ postOf .gripper_transfer =
      [.disconnectGripper, .home] ∧
    finOf .gripper_screw_transfer ++ postOf .gripper_screw_transfer =
      [.disconnectGripper] ∧
    finOf .remove_cap ++ postOf .remove_cap = [] ∧
    finOf .place_cap ++ postOf .place_cap = [] ∧
    finOf .pick_and_flip_object ++ postOf .pick_and_flip_object =
      [.disconnectGripper] ∧
    finOf .robotiq_screwdriver_transfer ++ postOf .robotiq_screwdriver_transfer =
      [.home] ∧
    finOf .pipette_transfer ++ postOf .pipette_transfer = [] := by
  refine ⟨?_, ?_, rfl, rfl, rfl, rfl, rfl, rfl, rfl⟩
  · intro m failAt
    rcases failAt with _ | k
    · rfl
    · by_cases h : k < (tryOf m).length
      · simp [runTask, runTEF, h]
      · simp [runTask, runTEF, h]
  · intro m k h
    simp [runTask, runTEF, h]

/-- C2 amended witness: a failure in the fourth step of `gripper_transfer`. -/
theorem task_exception_policy_witness :
    (runTask .gripper_transfer (some 3)).2 = false ∧
    (runTask .gripper_transfer (some 3)).1 =
      preOf .gripper_transfer ++ (tryOf .gripper_transfer).take 3 ++ [.printErr]
        ++ finOf .gripper_transfer ++ postOf .gripper_transfer :=
  ⟨task_exception_policy.1 .gripper_transfer (some 3),
   task_exception_policy.2.1 .gripper_transfer 3 (by decide)⟩

/-- `UR.gripper_transfer` including its argument check (ur_driver.py lines
135-137): with a falsy source or target it raises before the initial homing
move; the raised exception propagates (the check sits outside the `try`). -/
def gripper_transfer_checked (source target : List ℚ) (failAt : Option ℕ) :
    List Act × Option PyExn :=
  if source = [] ∨ target = [] then
    ([], some (.exception
      "Please provide both the source and target loactions to make a transfer"))
  else
    ((runTask .gripper_transfer failAt).1, none)

/-- C7: when the source or the target argument of `UR.gripper_transfer` is
omitted (Python falsy), the method raises before issuing any step at all —
in particular no homing move and no linear move. -/
theorem gripper_transfer_missing_args (source target : List ℚ)
    (failAt : Option ℕ) (h : source = [] ∨ target = []) :
    gripper_transfer_checked source target failAt =
      ([], some (.exception
        "Please provide both the source and target loactions to make a transfer")) := by
  simp [gripper_transfer_checked, h]

/-- C7 witness: omitted source. -/
theorem gripper_transfer_missing_args_witness :
    gripper_transfer_checked [] [0, 0, 0, 0, 0, 0] none =
      ([], some (.exception
        "Please provide both the source and target loactions to make a transfer")) :=
  gripper_transfer_missing_args [] [0, 0, 0, 0, 0, 0] none (Or.inl rfl)

end Facade

namespace UrpLoop

/-- `UR.get_movement_state` (ur_driver.py lines 85-96): compare the freshly
read, 2-decimal-formatted joint angles `cur` against the stored
`robot_current_joint_angles`, report `"READY"` on equality and `"BUSY"`
otherwise, and store `cur`.  The float formatting is abstracted: `readings`
below already yields the formatted string vectors. -/
def get_movement_state (stored cur : List String) : String × List String :=
  (if stored = cur then "READY" else "BUSY", cur)

/-- The polling loop of `UR.run_urp_program` (ur_driver.py lines 399-408),
with explicit fuel.  `readings i` is the joint-angle vector the `i`-th poll
reads; `stored` is the stored angles on entry; `count` is
`ready_status_count`.  In the body: a `"READY"` poll increments the counter
and the loop exits once it reaches six, any other poll resets it to zero,
and every iteration ends with `sleep(3)`.  The result is
`some (n, sleeps)` — the loop declared the program finished after the polls
`readings 0 .. readings (n-1)`, having slept the durations in `sleeps` —
or `none` when `fuel` iterations were not enough. -/
def pollLoop (readings : ℕ → List String) :
    ℕ → List String → ℕ → ℕ → Option (ℕ × List ℕ)
  | 0, _, _, _ => none
  | fuel + 1, stored, i, count =>
    let r := get_movement_state stored (readings i)
    if r.1 = "READY" then
      if 6 ≤ count + 1 then some (i + 1, [3])
      else (pollLoop readings fuel r.2 (i + 1) (count + 1)).map
        fun x => (x.1, 3 :: x.2)
    else (pollLoop readings fuel r.2 (i + 1) 0).map fun x => (x.1, 3 :: x.2)

/-- The loop as entered by `run_urp_program`: `program_status = "BUSY"`,
`ready_status_count = 0`, stored angles `stored0`. -/
def run_urp_polling (readings : ℕ → List String) (stored0 : List String)
    (fuel : ℕ) : Option (ℕ × List ℕ) :=
  pollLoop readings fuel stored0 0 0

/-- The joint angles `get_movement_state` compares on poll `i`: the initial
stored vector for poll 0, afterwards the previous poll's reading. -/
def storedAt (stored0 : List String) (readings : ℕ → List String) : ℕ → List String
  | 0 => stored0
  | i + 1 => readings i

/-- Poll `i` observes unchanged joint angles (reports `"READY"`). -/
def readyAt (stored0 : List String) (readings : ℕ → List String) (i : ℕ) : Bool :=
  storedAt stored0 readings i == readings i

/-- The consecutive-`READY` run length ending just before poll `i`; this is
the value `ready_status_count` holds when poll `i` is taken. -/
def runLen (stored0 : List String) (readings : ℕ → List String) : ℕ → ℕ
  | 0 => 0
  | i + 1 => if readyAt stored0 readings i then runLen stored0 readings i + 1 else 0

/-- The claim's finishing condition at poll count `n`: at least six polls
happened and the last six all reported unchanged joint angles. -/
def sixConsecutive (stored0 : List String) (readings : ℕ → List String)
    (n : ℕ) : Prop :=
  6 ≤ n ∧ ∀ k < 6, readyAt stored0 readings (n - 1 - k) = true

theorem runLen_le_iff (stored0 : List String) (readings : ℕ → List String) :
    ∀ (n j : ℕ), j ≤ runLen stored0 readings n ↔
      j ≤ n ∧ ∀ k < j, readyAt stored0 readings (n - 1 - k) = true := by
  intro n
  induction n with
  | zero =>
    intro j
    cases j with
    | zero => simp [runLen]
    | succ j' => simp [runLen]
  | succ n ih =>
    intro j
    by_cases hr : readyAt stored0 readings n = true
    · cases j with
      | zero => simp [runLen]
      | succ j' =>
        have h1 : j' + 1 ≤ runLen stored0 readings (n + 1) ↔
            j' ≤ runLen stored0 readings n := by
          simp [runLen, hr]
        rw [h1, ih j']
        constructor
        · rintro ⟨hj, hk⟩
          refine ⟨by omega, ?_⟩
          intro k hk6
          cases k with
          | zero => simpa using hr
          | succ k' =>
            have : n + 1 - 1 - (k' + 1) = n - 1 - k' := by omega
            rw [this]
            exact hk k' (by omega)
        · rintro ⟨hj, hk⟩
          refine ⟨by omega, ?_⟩
          intro k hk6
          have : n - 1 - k = n + 1 - 1 - (k + 1) := by omega
          rw [this]
          exact hk (k + 1) (by omega)
    · cases j with
      | zero => simp [runLen]
      | succ j' =>
        have h1 : runLen stored0 readings (n + 1) = 0 := by
          simp [runLen, hr]
        rw [h1]
        simp only [Nat.succ_le_iff]
        constructor
        · intro h
          exact absurd h (by omega)
        · rintro ⟨hj, hk⟩
          have := hk 0 (by omega)
          simp at this
          exact absurd this hr

theorem pollLoop_spec (readings : ℕ → List String) (stored0 : List String) :
    ∀ (fuel i n : ℕ) (sleeps : List ℕ),
      pollLoop readings fuel (storedAt stored0 readings i) i
          (runLen stored0 readings i) = some (n, sleeps) ↔
        (i < n ∧ n ≤ i + fuel ∧ 6 ≤ runLen stored0 readings n ∧
         (∀ m, i < m → m < n → runLen stored0 readings m < 6) ∧
         sleeps = List.replicate (n - i) 3) := by
  intro fuel
  induction fuel with
  | zero =>
    intro i n sleeps
    simp only [pollLoop]
    constructor
    · intro h
      exact absurd h (by simp)
    · rintro ⟨h1, h2, _⟩
      omega
  | succ fuel ih =>
    intro i n sleeps
    have key : runLen stored0 readings (i + 1) < 6 →
        (((pollLoop readings fuel (storedAt stored0 readings (i + 1)) (i + 1)
            (runLen stored0 readings (i + 1))).map fun x => (x.1, 3 :: x.2)) =
          some (n, sleeps) ↔
          (i < n ∧ n ≤ i + (fuel + 1) ∧ 6 ≤ runLen stored0 readings n ∧
           (∀ m, i < m → m < n → runLen stored0 readings m < 6) ∧
           sleeps = List.replicate (n - i) 3)) := by
      intro hlt
      cases hrec : pollLoop readings fuel (storedAt stored0 readings (i + 1))
          (i + 1) (runLen stored0 readings (i + 1)) with
      | none =>
        constructor
        · intro h
          exact absurd h (by simp)
        · rintro ⟨h1, h2, h3, h4, h5⟩
          have hne : n ≠ i + 1 := by
            intro hn
            rw [hn] at h3
            omega
          have hcall := (ih (i + 1) n (List.replicate (n - (i + 1)) 3)).mpr
            ⟨by omega, by omega, h3, fun m hm1 hm2 => h4 m (by omega) hm2, rfl⟩
          rw [hrec] at hcall
          exact absurd hcall (by simp)
      | some p =>
        obtain ⟨n', s'⟩ := p
        obtain ⟨ha, hb, hc, hd, he⟩ := (ih (i + 1) n' s').mp hrec
        simp only [Option.map_some', Option.some.injEq, Prod.mk.injEq]
        constructor
        · rintro ⟨rfl, rfl⟩
          refine ⟨by omega, by omega, hc, ?_, ?_⟩
          · intro m hm1 hm2
            by_cases hm : m = i + 1
            · rw [hm]
              omega
            · exact hd m (by omega) hm2
          · rw [he]
            have hni : n' - i = (n' - (i + 1)) + 1 := by omega
            rw [hni, List.replicate_succ]
        · rintro ⟨h1, h2, h3, h4, h5⟩
          have hne : n ≠ i + 1 := by
            intro hn
            rw [hn] at h3
            omega
          have hcall := (ih (i + 1) n (List.replicate (n - (i + 1)) 3)).mpr
            ⟨by omega, by omega, h3, fun m hm1 hm2 => h4 m (by omega) hm2, rfl⟩
          rw [hrec] at hcall
          simp only [Option.some.injEq, Prod.mk.injEq] at hcall
          obtain ⟨rfl, rfl⟩ := hcall
          refine ⟨rfl, ?_⟩
          rw [h5]
          have hni : n' - i = (n' - (i + 1)) + 1 := by omega
          rw [hni, List.replicate_succ]
    by_cases hr : readyAt stored0 readings i = true
    · have heq : storedAt stored0 readings i = readings i := by
        simpa [readyAt] using hr
      have hrl : runLen stored0 readings (i + 1) =
          runLen stored0 readings i + 1 := by
        simp [runLen, hr]
      by_cases h6 : 6 ≤ runLen stored0 readings i + 1
      · have hL : pollLoop readings (fuel + 1) (storedAt stored0 readings i) i
            (runLen stored0 readings i) = some (i + 1, [3]) := by
          simp [pollLoop, get_movement_state, heq, h6]
        rw [hL]
        simp only [Option.some.injEq, Prod.mk.injEq]
        constructor
        · rintro ⟨rfl, rfl⟩
          refine ⟨by omega, by omega, by omega, ?_, by simp⟩
          intro m hm1 hm2
          omega
        · rintro ⟨h1, h2, h3, h4, h5⟩
          have hn : n = i + 1 := by
            by_contra hne
            have := h4 (i + 1) (by omega) (by omega)
            omega
          subst hn
          refine ⟨rfl, ?_⟩
          rw [h5]
          simp
      · have hL : pollLoop readings (fuel + 1) (storedAt stored0 readings i) i
            (runLen stored0 readings i) =
            (pollLoop readings fuel (readings i) (i + 1)
              (runLen stored0 readings i + 1)).map fun x => (x.1, 3 :: x.2) := by
          simp [pollLoop, get_movement_state, heq, h6]
        rw [hL, ← hrl]
        exact key (by omega)
    · have hneq : ¬ storedAt stored0 readings i = readings i := by
        simpa [readyAt] using hr
      have hbr : ¬ (("BUSY" : String) = "READY") := by decide
      have hrl0 : runLen stored0 readings (i + 1) = 0 := by
        simp [runLen, hr]
      have hL : pollLoop readings (fuel + 1) (storedAt stored0 readings i) i
          (runLen stored0 readings i) =
          (pollLoop readings fuel (readings i) (i + 1) 0).map
            fun x => (x.1, 3 :: x.2) := by
        simp [pollLoop, get_movement_state, hneq, hbr]
      rw [hL, ← hrl0]
      exact key (by omega)

/-- C4: the polling loop of `UR.run_urp_program` declares the program
finished after exactly `n` polls iff the final six of those polls all
reported unchanged joint angles and no earlier run of six consecutive
unchanged polls exists — a single differing poll resets the
consecutive-`READY` counter to zero, so only an uninterrupted final window
counts — and the loop sleeps 3 seconds once per poll (`sleeps` is `n`
copies of 3). -/
theorem run_urp_polling_spec (readings : ℕ → List String) (stored0 : List String)
    (fuel n : ℕ) (sleeps : List ℕ) :
    run_urp_polling readings stored0 fuel = some (n, sleeps) ↔
      (n ≤ fuel ∧ sleeps = List.replicate n 3 ∧
       sixConsecutive stored0 readings n ∧
       ∀ m < n, ¬ sixConsecutive stored0 readings m) := by
  have hsix : ∀ m, sixConsecutive stored0 readings m ↔
      6 ≤ runLen stored0 readings m := by
    intro m
    simp only [sixConsecutive]
    rw [runLen_le_iff stored0 readings m 6]
  have h := pollLoop_spec readings stored0 fuel 0 n sleeps
  rw [show storedAt stored0 readings 0 = stored0 from rfl] at h
  rw [show runLen stored0 readings 0 = 0 from rfl] at h
  rw [run_urp_polling, h]
  constructor
  · rintro ⟨h1, h2, h3, h4, h5⟩
    refine ⟨by omega, by simpa using h5, (hsix n).mpr h3, ?_⟩
    intro m hm
    rw [hsix m]
    rcases Nat.eq_zero_or_pos m with rfl | hm0
    · simp [runLen]
    · have := h4 m hm0 hm
      omega
  · rintro ⟨h1, h2, h3, h4⟩
    have h3' := (hsix n).mp h3
    have hn6 : 6 ≤ n := h3.1
    refine ⟨by omega, by omega, h3', ?_, by simpa using h2⟩
    intro m hm1 hm2
    have hm := h4 m hm2
    rw [hsix m] at hm
    omega

/-- C4 witness: with always-unchanged readings the loop finishes after exactly six
polls; a differing reading on polls 5-6 resets the counter and pushes
completion out to poll 13. -/
theorem run_urp_polling_spec_witness :
    run_urp_polling (fun _ => ["0.00"]) ["0.00"] 10 =
      some (6, List.replicate 6 3) ∧
    sixConsecutive ["0.00"] (fun _ => ["0.00"]) 6 ∧
    run_urp_polling (fun i => if i = 5 then ["1.00"] else ["0.00"]) ["0.00"] 20 =
      some (13, List.replicate 13 3) := by
  have h : run_urp_polling (fun _ => ["0.00"]) ["0.00"] 10 =
      some (6, List.replicate 6 3) := by rfl
  refine ⟨h, ((run_urp_polling_spec (fun _ => ["0.00"]) ["0.00"] 10 6
    (List.replicate 6 3)).mp h).2.2.1, by rfl⟩

end UrpLoop

end URModule
